import Mathlib

/-!
Shallow embedding of the PulseCheck check-execution and status-aggregation
engine, translated from the repository source:

* `supabase/functions/runCheck/index.ts` — `performCheck` (Probe Executor);
* `supabase/migrations` (`001_init.sql`) — the `monitor_checks` table and the
  `get_latest_monitor_status` SQL helper (Check History Store / latest query);
* `supabase/functions/getMonitors/index.ts` — the ListMonitors handler
  (Status Aggregator composition over the per-monitor RPC);
* `supabase/functions/createMonitor/index.ts` — the CreateMonitor handler
  (Monitor Lifecycle Manager `create`).

Machine integers are modelled as `Nat` (all quantities involved — HTTP status
codes, elapsed milliseconds, epoch timestamps, interval seconds — are
non-negative in the source and nowhere near overflow). JavaScript values that
may be `undefined` are modelled as `Option`. The wall clock within one probe
call is modelled as monotone, so an elapsed duration is a `Nat`.
-/

/-- Status enum of a check result: the TypeScript literal union
`"up" | "down"` of `runCheck/index.ts`, also the SQL check constraint
`status in ('up','down')`. -/
inductive Status where
  | up
  | down
deriving DecidableEq, Repr

/-- Probe outcome, the `Omit<CheckResult, "monitor_id" | "checked_at">` value
returned by `performCheck`: `{status, response_time_ms: number | null,
error_message: string | null}`. -/
structure ProbeResult where
  status : Status
  response_time_ms : Option Nat
  error_message : Option String
deriving DecidableEq, Repr

/-- A JavaScript thrown value as observed by the `catch` block of
`performCheck`: either an `Error` instance carrying its `.message` string
(which may be empty), or any non-`Error` value. -/
inductive Thrown where
  | errorWithMessage (message : String)
  | nonError
deriving DecidableEq, Repr

/-- Behaviour of the underlying network interaction attempted inside the
`try` block of `performCheck`, before the `AbortSignal` timeout is applied:
either the fetch resolves with a response (status code and status text), or
an exception is raised (network failure, DNS failure, connection refused,
invalid URL, ...). -/
inductive NetResult where
  | success (statusCode : Nat) (statusText : String)
  | raise (v : Thrown)
deriving DecidableEq, Repr

/-- Environment of one `performCheck` call: what the network interaction
would resolve to, and how many wall-clock milliseconds it takes to resolve. -/
structure NetEnv where
  result : NetResult
  elapsed : Nat
deriving DecidableEq, Repr

/-- Message of the `TimeoutError` `DOMException` produced when
`AbortSignal.timeout` fires (a `DOMException` is an `Error` instance). -/
def timeoutMessage : String := "The signal has been aborted"

/-- Observable outcome of an awaited `fetch` call: a response together with
the elapsed time at resolution, or a raised value together with the elapsed
time at the raise. -/
inductive FetchOutcome where
  | response (statusCode : Nat) (statusText : String) (elapsed : Nat)
  | raised (v : Thrown) (elapsed : Nat)
deriving DecidableEq, Repr

/-- Semantics of `fetch(url, {signal: AbortSignal.timeout(timeoutMs)})` in
environment `env`: if the interaction would take longer than `timeoutMs`,
the signal aborts the fetch at `timeoutMs` with a `TimeoutError`; otherwise
the interaction's own outcome is observed at its own elapsed time. -/
def fetchWithTimeout (timeoutMs : Nat) (env : NetEnv) : FetchOutcome :=
  if timeoutMs < env.elapsed then
    .raised (.errorWithMessage timeoutMessage) timeoutMs
  else
    match env.result with
    | .success c t => .response c t env.elapsed
    | .raise v => .raised v env.elapsed

/-- The `catch` block's message extraction:
`error instanceof Error ? error.message : "Unknown error"`. -/
def catchMessage : Thrown → String
  | .errorWithMessage m => m
  | .nonError => "Unknown error"

/-- Embedding of `performCheck(url, type)` from
`supabase/functions/runCheck/index.ts` lines 32–97, as a function of the
network environment. The `http`/`https` branch issues a GET with a
10000 ms timeout and classifies `response.ok || (300 <= status < 400)`
(that is, 2xx or 3xx) as up, any other status as down with message
`HTTP <status>: <statusText>`; the `ping` branch issues a HEAD to the
scheme+host origin with a 5000 ms timeout and classifies any response as
up (the `new URL(url)` throw for an unparseable url is one of the raised
outcomes of the environment, caught by the same `catch`); any other type
is down with `"Unsupported monitor type"`; every exception is caught and
becomes a down result carrying the elapsed time and the caught message. -/
def performCheck (url : String) (type : String) (env : NetEnv) : ProbeResult :=
  if type = "http" ∨ type = "https" then
    match fetchWithTimeout 10000 env with
    | .response code text elapsed =>
      if (200 ≤ code ∧ code < 300) ∨ (300 ≤ code ∧ code < 400) then
        { status := .up, response_time_ms := some elapsed, error_message := none }
      else
        { status := .down, response_time_ms := some elapsed,
          error_message := some ("HTTP " ++ toString code ++ ": " ++ text) }
    | .raised v elapsed =>
      { status := .down, response_time_ms := some elapsed,
        error_message := some (catchMessage v) }
  else if type = "ping" then
    match fetchWithTimeout 5000 env with
    | .response _ _ elapsed =>
      { status := .up, response_time_ms := some elapsed, error_message := none }
    | .raised v elapsed =>
      { status := .down, response_time_ms := some elapsed,
        error_message := some (catchMessage v) }
  else
    { status := .down, response_time_ms := none,
      error_message := some "Unsupported monitor type" }

/-- A row of the `monitor_checks` table from `001_init.sql`: `id` and
`checked_at` are generated by the store on insert (`checked_at` default
`now()`, modelled as epoch milliseconds). -/
structure CheckRow where
  id : Nat
  monitor_id : String
  status : Status
  response_time_ms : Option Nat
  error_message : Option String
  checked_at : Nat
deriving DecidableEq, Repr

/-- A row of the table returned by the SQL helper
`get_latest_monitor_status`: its `returns table(...)` clause projects only
`monitor_id`, `status` and `checked_at` (no `response_time_ms`,
`error_message` or `id` column). -/
structure LatestRow where
  monitor_id : String
  status : Status
  checked_at : Nat
deriving DecidableEq, Repr

/-- The `where monitor_id = monitor_uuid` restriction: the rows of
`monitor_checks` belonging to one monitor, in table order. -/
def monitorRows (table : List CheckRow) (monitor_uuid : String) : List CheckRow :=
  table.filter (fun r => r.monitor_id = monitor_uuid)

/-- The `order by checked_at desc limit 1` step: the head of the rows
sorted by `checked_at` descending, that is, the first row of the list whose
`checked_at` is maximal (SQL leaves the order among equal timestamps
unspecified; taking the earliest such row is the stable-sort refinement of
that nondeterminism). -/
def firstMaxByCheckedAt : List CheckRow → Option CheckRow
  | [] => none
  | r :: rs =>
    match firstMaxByCheckedAt rs with
    | none => some r
    | some b => if r.checked_at < b.checked_at then some b else some r

/-- The `select monitor_id, status, checked_at` projection of the helper. -/
def projectLatest (r : CheckRow) : LatestRow :=
  { monitor_id := r.monitor_id, status := r.status, checked_at := r.checked_at }

/-- Embedding of the SQL function `get_latest_monitor_status(monitor_uuid)`
from `001_init.sql` lines 40–52, as a query over the `monitor_checks`
table: the projection of the monitor's row with the greatest `checked_at`,
or no row when the monitor has no checks. -/
def get_latest_monitor_status (table : List CheckRow) (monitor_uuid : String) :
    Option LatestRow :=
  (firstMaxByCheckedAt (monitorRows table monitor_uuid)).map projectLatest

/-- A row of the `monitors` table (also the TypeScript `Monitor` interface
of `getMonitors/index.ts`); `created_at` is modelled as epoch milliseconds. -/
structure MonitorRow where
  id : String
  user_id : String
  name : String
  url : String
  type : String
  interval_seconds : Nat
  created_at : Nat
deriving DecidableEq, Repr

/-- The `latest_status` object the getMonitors handler builds from the first
row of the RPC result: `{status, checked_at, response_time_ms}` where
`response_time_ms` is optional in the TypeScript interface. -/
structure LatestStatusView where
  status : Status
  checked_at : Nat
  response_time_ms : Option Nat
deriving DecidableEq, Repr

/-- One element of the getMonitors response `data` array: the monitor's
fields spread together with `latest_status` (nullable), modelled as a pair. -/
structure MonitorWithStatus where
  monitor : MonitorRow
  latest_status : Option LatestStatusView
deriving DecidableEq, Repr

/-- Outcome of one `supabaseClient.rpc("get_latest_monitor_status", ...)`
call as the handler observes it: either `statusError` is non-null, or a
(possibly empty) array of rows is returned. -/
inductive RpcOutcome where
  | failure
  | rows (statusData : List LatestRow)
deriving DecidableEq, Repr

/-- Embedding of the body of the `map` callback in
`getMonitors/index.ts` lines 107–129: when the RPC failed or returned no
rows, `latest_status` stays `null`; otherwise it is built from
`statusData[0]`. The RPC row has no `response_time_ms` column, so the
handler's read `status.response_time_ms` is `undefined` and the built
object's `response_time_ms` is absent. -/
def attachLatestStatus (outcome : RpcOutcome) (m : MonitorRow) : MonitorWithStatus :=
  match outcome with
  | .failure => { monitor := m, latest_status := none }
  | .rows ds =>
    match ds.head? with
    | none => { monitor := m, latest_status := none }
    | some s =>
      { monitor := m,
        latest_status := some
          { status := s.status, checked_at := s.checked_at,
            response_time_ms := none } }

/-- The `(monitors || []).map(async (monitor) => ...)` loop of the handler,
instrumented with the list of RPC invocations it performs: the handler
issues one `get_latest_monitor_status` call per monitor, passing that
monitor's id. -/
def monitorsWithStatusAndCalls (rpc : String → RpcOutcome) :
    List MonitorRow → List MonitorWithStatus × List String
  | [] => ([], [])
  | m :: rest =>
    let p := monitorsWithStatusAndCalls rpc rest
    (attachLatestStatus (rpc m.id) m :: p.1, m.id :: p.2)

/-- Response of the getMonitors handler after authentication: HTTP 200 with
`{data, count}`, or HTTP 500 `"Failed to fetch monitors"` when the monitors
query itself failed. A per-monitor RPC failure never produces the error
response. -/
inductive ListMonitorsResponse where
  | ok (data : List MonitorWithStatus) (count : Nat)
  | fetchFailed
deriving DecidableEq, Repr

/-- Embedding of `getMonitors/index.ts` lines 85–145 (after the auth
check): fetch the caller's monitors (newest first — the ordering is the
store's, kept abstract in the fetched list), then attach each monitor's
latest status via one RPC per monitor, and answer with the decorated list
and its length. -/
def getMonitors (fetchedMonitors : Except String (List MonitorRow))
    (rpc : String → RpcOutcome) : ListMonitorsResponse :=
  match fetchedMonitors with
  | .error _ => .fetchFailed
  | .ok ms =>
    let p := monitorsWithStatusAndCalls rpc ms
    .ok p.1 p.1.length

/-- The RPC outcome produced by the real database: running the SQL helper
over the current `monitor_checks` table, which returns at most one row and
never a `statusError`. -/
def dbRpc (table : List CheckRow) : String → RpcOutcome :=
  fun uuid => .rows (get_latest_monitor_status table uuid).toList

/-- Body of a CreateMonitor request as parsed from JSON: every field may be
absent (`undefined`). -/
structure CreateMonitorRequest where
  name : Option String
  url : Option String
  type : Option String
  interval_seconds : Option Nat
deriving DecidableEq, Repr

/-- JavaScript truthiness of a possibly-missing string field: `undefined`
and `""` are falsy, every other string is truthy. -/
def truthyString : Option String → Bool
  | none => false
  | some s => s ≠ ""

/-- The handler's `body.interval_seconds || 300`: `undefined` and `0` are
falsy and fall back to 300; every other value is kept as given. -/
def intervalOrDefault : Option Nat → Nat
  | none => 300
  | some n => if n = 0 then 300 else n

/-- The row the handler inserts into `monitors` (`id` and `created_at` are
generated by the store). -/
structure MonitorInsert where
  user_id : String
  name : String
  url : String
  type : String
  interval_seconds : Nat
deriving DecidableEq, Repr

/-- Response of the createMonitor handler after authentication: HTTP 400
with an error message (a validation failure, no row inserted), or HTTP 201
with the inserted row. -/
inductive CreateMonitorResult where
  | validationError (message : String)
  | created (row : MonitorInsert)
deriving DecidableEq, Repr

/-- Embedding of `createMonitor/index.ts` lines 82–158 (after the auth
check), with the platform's WHATWG URL validity check (`new URL(body.url)`
not throwing) abstracted as the boolean oracle `urlParses`: reject a falsy
`name`, `url` or `type`; reject a type outside `http`/`https`/`ping`;
reject a url the URL constructor throws on; otherwise insert the row with
`interval_seconds: body.interval_seconds || 300` (the source quotes the
type names in the second message; the quotes are elided here). -/
def createMonitor (urlParses : String → Bool) (user_id : String)
    (body : CreateMonitorRequest) : CreateMonitorResult :=
  if ¬ (truthyString body.name ∧ truthyString body.url ∧ truthyString body.type) then
    .validationError "Missing required fields: name, url, type"
  else
    match body.name, body.url, body.type with
    | some name, some url, some ty =>
      if ¬ (ty = "http" ∨ ty = "https" ∨ ty = "ping") then
        .validationError "Invalid type. Must be http, https, or ping"
      else if ¬ urlParses url then
        .validationError "Invalid URL format"
      else
        .created { user_id := user_id, name := name, url := url, type := ty,
                   interval_seconds := intervalOrDefault body.interval_seconds }
    | _, _, _ => .validationError "Missing required fields: name, url, type"

/-- Concrete check rows used by witnesses: two results for monitor `"m1"`,
the one appended first carrying the greater timestamp in the reordered
witness. -/
def rowEarly : CheckRow :=
  { id := 1, monitor_id := "m1", status := .down, response_time_ms := some 50,
    error_message := some "HTTP 500: Internal Server Error", checked_at := 100 }

def rowLate : CheckRow :=
  { id := 2, monitor_id := "m1", status := .up, response_time_ms := some 40,
    error_message := none, checked_at := 200 }


/-- Concrete monitors used by the C7 and C10 witnesses. -/
def monA : MonitorRow :=
  { id := "a", user_id := "u1", name := "site-a", url := "https://a.test",
    type := "https", interval_seconds := 300, created_at := 2 }

def monB : MonitorRow :=
  { id := "b", user_id := "u1", name := "site-b", url := "https://b.test",
    type := "http", interval_seconds := 120, created_at := 1 }

/-- An RPC environment in which every per-monitor lookup fails. -/
def failingRpc : String → RpcOutcome := fun _ => RpcOutcome.failure


/-- The check row and monitor used by the C6 evaluation. -/
def c6check : CheckRow :=
  { id := 1, monitor_id := "m1", status := .up, response_time_ms := some 123,
    error_message := none, checked_at := 1000 }

def c6monitor : MonitorRow :=
  { id := "m1", user_id := "u1", name := "site", url := "https://example.test",
    type := "https", interval_seconds := 300, created_at := 5 }


/-! Lemmas about the `order by checked_at desc limit 1` selection. -/

theorem firstMaxByCheckedAt_eq_none_iff (l : List CheckRow) :
    firstMaxByCheckedAt l = none ↔ l = [] := by
  cases l with
  | nil => simp [firstMaxByCheckedAt]
  | cons r rs =>
    simp only [firstMaxByCheckedAt]
    constructor
    · intro h
      exfalso
      cases hr : firstMaxByCheckedAt rs with
      | none =>
        simp only [hr] at h
        exact Option.noConfusion h
      | some b =>
        simp only [hr] at h
        by_cases hlt : r.checked_at < b.checked_at
        · rw [if_pos hlt] at h; exact Option.noConfusion h
        · rw [if_neg hlt] at h; exact Option.noConfusion h
    · intro h
      exact absurd h (List.cons_ne_nil r rs)

theorem firstMaxByCheckedAt_spec :
    ∀ (l : List CheckRow) (b : CheckRow), firstMaxByCheckedAt l = some b →
      b ∈ l ∧ ∀ x ∈ l, x.checked_at ≤ b.checked_at
  | [], b, h => by simp [firstMaxByCheckedAt] at h
  | r :: rs, b, h => by
    simp only [firstMaxByCheckedAt] at h
    cases hr : firstMaxByCheckedAt rs with
    | none =>
      simp only [hr, Option.some.injEq] at h
      subst h
      have hnil : rs = [] := (firstMaxByCheckedAt_eq_none_iff rs).mp hr
      subst hnil
      refine ⟨List.mem_cons_self _ _, ?_⟩
      intro x hx
      simp only [List.mem_cons, List.not_mem_nil, or_false] at hx
      subst hx
      exact Nat.le_refl _
    | some c =>
      simp only [hr] at h
      obtain ⟨hcmem, hcmax⟩ := firstMaxByCheckedAt_spec rs c hr
      by_cases hlt : r.checked_at < c.checked_at
      · rw [if_pos hlt, Option.some.injEq] at h
        subst h
        refine ⟨List.mem_cons_of_mem _ hcmem, ?_⟩
        intro x hx
        rcases List.mem_cons.mp hx with hx | hx
        · subst hx; omega
        · exact hcmax x hx
      · rw [if_neg hlt, Option.some.injEq] at h
        subst h
        refine ⟨List.mem_cons_self _ _, ?_⟩
        intro x hx
        rcases List.mem_cons.mp hx with hx | hx
        · subst hx; exact Nat.le_refl _
        · have := hcmax x hx; omega

theorem firstMaxByCheckedAt_eq_of_strict_max (l : List CheckRow) (r : CheckRow)
    (hr : r ∈ l) (hstrict : ∀ x ∈ l, x ≠ r → x.checked_at < r.checked_at) :
    firstMaxByCheckedAt l = some r := by
  cases hb : firstMaxByCheckedAt l with
  | none =>
    rw [firstMaxByCheckedAt_eq_none_iff] at hb
    subst hb
    simp at hr
  | some b =>
    obtain ⟨hmem, hmax⟩ := firstMaxByCheckedAt_spec l b hb
    by_cases hbr : b = r
    · rw [hbr]
    · have h1 := hstrict b hmem hbr
      have h2 := hmax r hr
      omega

/-- C2: `latest(monitor_id)` — the SQL helper `get_latest_monitor_status` —
returns absent exactly when the monitor has no check rows; any returned row
is the projection of a stored row of that monitor whose `checked_at` is
maximal among the monitor's rows; and when one row's `checked_at` strictly
exceeds every other row's for that monitor (the "the result with the
maximum checked_at" of the claim is well defined), that row is returned
under any permutation of the table, so recency is decided by timestamp
comparison and not by insertion order. -/
theorem C2_latest_is_max_timestamp (table table2 : List CheckRow) (uuid : String) :
    (get_latest_monitor_status table uuid = none ↔ monitorRows table uuid = []) ∧
    (∀ lr, get_latest_monitor_status table uuid = some lr →
      ∃ r ∈ monitorRows table uuid, projectLatest r = lr ∧
        ∀ x ∈ monitorRows table uuid, x.checked_at ≤ r.checked_at) ∧
    (∀ r ∈ monitorRows table uuid,
      (∀ x ∈ monitorRows table uuid, x ≠ r → x.checked_at < r.checked_at) →
      table.Perm table2 →
      get_latest_monitor_status table uuid = some (projectLatest r) ∧
      get_latest_monitor_status table2 uuid = some (projectLatest r)) := by
  refine ⟨?_, ?_, ?_⟩
  · rw [get_latest_monitor_status, Option.map_eq_none', firstMaxByCheckedAt_eq_none_iff]
  · intro lr h
    rw [get_latest_monitor_status, Option.map_eq_some'] at h
    obtain ⟨b, hb, hproj⟩ := h
    obtain ⟨hmem, hmax⟩ := firstMaxByCheckedAt_spec _ b hb
    exact ⟨b, hmem, hproj, hmax⟩
  · intro r hr hstrict hperm
    have hperm' : (monitorRows table uuid).Perm (monitorRows table2 uuid) :=
      hperm.filter _
    constructor
    · rw [get_latest_monitor_status,
        firstMaxByCheckedAt_eq_of_strict_max _ r hr hstrict, Option.map_some']
    · have hr2 : r ∈ monitorRows table2 uuid := hperm'.mem_iff.mp hr
      have hstrict2 : ∀ x ∈ monitorRows table2 uuid, x ≠ r →
          x.checked_at < r.checked_at := by
        intro x hx hxr
        exact hstrict x (hperm'.mem_iff.mpr hx) hxr
      rw [get_latest_monitor_status,
        firstMaxByCheckedAt_eq_of_strict_max _ r hr2 hstrict2, Option.map_some']

theorem C2_latest_is_max_timestamp_witness :
    get_latest_monitor_status [rowEarly, rowLate] "m1" = some (projectLatest rowLate) ∧
    get_latest_monitor_status [rowLate, rowEarly] "m1" = some (projectLatest rowLate) :=
  (C2_latest_is_max_timestamp [rowEarly, rowLate] [rowLate, rowEarly] "m1").2.2
    rowLate (by decide) (by decide) (List.Perm.swap rowLate rowEarly [])

/-- C3: `performCheck` is a total function of its inputs and environment —
it returns exactly one result, never raising: every failure path of the
`try` block resolves through the `catch` into a result, whose status is one
of up/down; and for any type other than `http`, `https` or `ping` the
result is down with the descriptive message `"Unsupported monitor type"`. -/
theorem C3_probe_total_up_or_down (url type : String) (env : NetEnv) :
    ((performCheck url type env).status = Status.up ∨
      (performCheck url type env).status = Status.down) ∧
    (¬ (type = "http" ∨ type = "https" ∨ type = "ping") →
      performCheck url type env =
        { status := Status.down, response_time_ms := none,
          error_message := some "Unsupported monitor type" }) := by
  constructor
  · cases (performCheck url type env).status
    · exact Or.inl rfl
    · exact Or.inr rfl
  · intro h
    push_neg at h
    obtain ⟨h1, h2, h3⟩ := h
    unfold performCheck
    rw [if_neg (by tauto), if_neg h3]

theorem C3_probe_total_up_or_down_witness :
    performCheck "https://example.test" "ftp"
      { result := .success 200 "OK", elapsed := 42 } =
    { status := Status.down, response_time_ms := none,
      error_message := some "Unsupported monitor type" } :=
  (C3_probe_total_up_or_down "https://example.test" "ftp"
    { result := .success 200 "OK", elapsed := 42 }).2 (by decide)

/-- C4: for the `http`/`https` branch, when the fetch resolves within the
10-second timeout the result is up exactly when the status code is 2xx or
3xx, and any other status code yields down with error detail
`HTTP <status>: <statusText>`; a raised network failure, and exceeding the
10-second timeout, each yield down. -/
theorem C4_http_classification (url type : String) (env : NetEnv)
    (hty : type = "http" ∨ type = "https") :
    (∀ c t, env.elapsed ≤ 10000 → env.result = NetResult.success c t →
      (((performCheck url type env).status = Status.up ↔
        ((200 ≤ c ∧ c < 300) ∨ (300 ≤ c ∧ c < 400))) ∧
      (¬ ((200 ≤ c ∧ c < 300) ∨ (300 ≤ c ∧ c < 400)) →
        performCheck url type env =
          { status := Status.down, response_time_ms := some env.elapsed,
            error_message := some ("HTTP " ++ toString c ++ ": " ++ t) }))) ∧
    (∀ v, env.result = NetResult.raise v →
      (performCheck url type env).status = Status.down) ∧
    (10000 < env.elapsed → (performCheck url type env).status = Status.down) := by
  unfold performCheck
  rw [if_pos hty]
  refine ⟨?_, ?_, ?_⟩
  · intro c t hle hres
    have hf : fetchWithTimeout 10000 env = .response c t env.elapsed := by
      unfold fetchWithTimeout
      rw [if_neg (by omega), hres]
    by_cases h2 : (200 ≤ c ∧ c < 300) ∨ (300 ≤ c ∧ c < 400)
    · simp only [hf, if_pos h2]
      exact ⟨by simp [h2], fun h => absurd h2 h⟩
    · simp only [hf, if_neg h2]
      exact ⟨by simp [h2], fun _ => by trivial⟩
  · intro v hres
    by_cases htime : 10000 < env.elapsed
    · have hf : fetchWithTimeout 10000 env =
          .raised (.errorWithMessage timeoutMessage) 10000 := by
        unfold fetchWithTimeout
        rw [if_pos htime]
      simp [hf]
    · have hf : fetchWithTimeout 10000 env = .raised v env.elapsed := by
        unfold fetchWithTimeout
        rw [if_neg htime, hres]
      simp [hf]
  · intro htime
    have hf : fetchWithTimeout 10000 env =
        .raised (.errorWithMessage timeoutMessage) 10000 := by
      unfold fetchWithTimeout
      rw [if_pos htime]
    simp [hf]

theorem C4_http_classification_witness :
    performCheck "https://example.test" "http"
      { result := .success 404 "Not Found", elapsed := 20 } =
    { status := Status.down, response_time_ms := some 20,
      error_message := some "HTTP 404: Not Found" } := by
  have h := ((C4_http_classification "https://example.test" "http"
      { result := .success 404 "Not Found", elapsed := 20 } (Or.inl rfl)).1
      404 "Not Found" (by decide) rfl).2 (by decide)
  exact h.trans (by decide)

/-- C5: every probe result satisfies the CheckResult field invariant — an up
result always carries a latency (a `Nat`, hence non-negative) and no error
detail, and a down result carries an error detail or carries a latency with
no error detail, never both absent. -/
theorem C5_checkresult_invariant (url type : String) (env : NetEnv) :
    ((performCheck url type env).status = Status.up →
      (∃ l, (performCheck url type env).response_time_ms = some l) ∧
      (performCheck url type env).error_message = none) ∧
    ((performCheck url type env).status = Status.down →
      (performCheck url type env).error_message ≠ none ∨
      ((performCheck url type env).response_time_ms ≠ none ∧
        (performCheck url type env).error_message = none)) := by
  unfold performCheck
  by_cases h1 : type = "http" ∨ type = "https"
  · rw [if_pos h1]
    cases hf : fetchWithTimeout 10000 env with
    | response c t e =>
      by_cases h2 : (200 ≤ c ∧ c < 300) ∨ (300 ≤ c ∧ c < 400)
      · simp [h2]
      · simp [h2]
    | raised v e => simp
  · rw [if_neg h1]
    by_cases h3 : type = "ping"
    · rw [if_pos h3]
      cases hf : fetchWithTimeout 5000 env with
      | response c t e => simp
      | raised v e => simp
    · rw [if_neg h3]
      simp

theorem C5_checkresult_invariant_witness :
    (∃ l, (performCheck "https://example.test" "https"
      { result := .success 204 "No Content", elapsed := 33 }).response_time_ms = some l) ∧
    (performCheck "https://example.test" "https"
      { result := .success 204 "No Content", elapsed := 33 }).error_message = none :=
  (C5_checkresult_invariant "https://example.test" "https"
    { result := .success 204 "No Content", elapsed := 33 }).1 (by decide)

/-- Helper for C9: the status-code error detail `HTTP <c>: <t>` is never the
empty string (its length is at least the length of the `"HTTP "` prefix). -/
theorem httpDetail_ne_empty (c : Nat) (t : String) :
    "HTTP " ++ toString c ++ ": " ++ t ≠ "" := by
  intro h
  have hlen := congrArg String.length h
  simp only [String.length_append] at hlen
  have h5 : ("HTTP " : String).length = 5 := rfl
  have hc : (": " : String).length = 2 := rfl
  have h0 : ("" : String).length = 0 := rfl
  omega

/-- C9 amended: a probe result's `error_message` is non-null exactly when
its status is down; every such message is non-empty except in one case —
when the caught exception is an `Error` whose own `.message` is empty, the
handler stores that empty message verbatim. -/
theorem C9_error_message_iff_down (url type : String) (env : NetEnv) :
    ((performCheck url type env).error_message.isSome ↔
      (performCheck url type env).status = Status.down) ∧
    (∀ m, (performCheck url type env).error_message = some m → m = "" →
      env.result = NetResult.raise (Thrown.errorWithMessage "")) := by
  unfold performCheck
  by_cases h1 : type = "http" ∨ type = "https"
  · rw [if_pos h1]
    by_cases htime : 10000 < env.elapsed
    · have hf : fetchWithTimeout 10000 env =
          .raised (.errorWithMessage timeoutMessage) 10000 := by
        unfold fetchWithTimeout
        rw [if_pos htime]
      simp only [hf]
      refine ⟨by simp, ?_⟩
      intro m hm hm0
      simp only [catchMessage, Option.some.injEq] at hm
      rw [hm0] at hm
      exact absurd hm.symm (by decide)
    · cases hres : env.result with
      | success c t =>
        have hf : fetchWithTimeout 10000 env = .response c t env.elapsed := by
          unfold fetchWithTimeout
          rw [if_neg htime, hres]
        simp only [hf]
        by_cases h2 : (200 ≤ c ∧ c < 300) ∨ (300 ≤ c ∧ c < 400)
        · rw [if_pos h2]
          exact ⟨by simp, by intro m hm hm0; exact absurd hm Option.noConfusion⟩
        · rw [if_neg h2]
          refine ⟨by simp, ?_⟩
          intro m hm hm0
          simp only [Option.some.injEq] at hm
          rw [hm0] at hm
          exact absurd hm (httpDetail_ne_empty c t)
      | raise v =>
        have hf : fetchWithTimeout 10000 env = .raised v env.elapsed := by
          unfold fetchWithTimeout
          rw [if_neg htime, hres]
        simp only [hf]
        refine ⟨by simp, ?_⟩
        intro m hm hm0
        simp only [Option.some.injEq] at hm
        cases v with
        | errorWithMessage s =>
          simp only [catchMessage] at hm
          rw [hm0] at hm
          subst hm
          rfl
        | nonError =>
          simp only [catchMessage] at hm
          rw [hm0] at hm
          exact absurd hm.symm (by decide)
  · rw [if_neg h1]
    by_cases h3 : type = "ping"
    · rw [if_pos h3]
      by_cases htime : 5000 < env.elapsed
      · have hf : fetchWithTimeout 5000 env =
            .raised (.errorWithMessage timeoutMessage) 5000 := by
          unfold fetchWithTimeout
          rw [if_pos htime]
        simp only [hf]
        refine ⟨by simp, ?_⟩
        intro m hm hm0
        simp only [catchMessage, Option.some.injEq] at hm
        rw [hm0] at hm
        exact absurd hm.symm (by decide)
      · cases hres : env.result with
        | success c t =>
          have hf : fetchWithTimeout 5000 env = .response c t env.elapsed := by
            unfold fetchWithTimeout
            rw [if_neg htime, hres]
          simp only [hf]
          exact ⟨by simp, by intro m hm hm0; exact absurd hm Option.noConfusion⟩
        | raise v =>
          have hf : fetchWithTimeout 5000 env = .raised v env.elapsed := by
            unfold fetchWithTimeout
            rw [if_neg htime, hres]
          simp only [hf]
          refine ⟨by simp, ?_⟩
          intro m hm hm0
          simp only [Option.some.injEq] at hm
          cases v with
          | errorWithMessage s =>
            simp only [catchMessage] at hm
            rw [hm0] at hm
            subst hm
            rfl
          | nonError =>
            simp only [catchMessage] at hm
            rw [hm0] at hm
            exact absurd hm.symm (by decide)
    · rw [if_neg h3]
      refine ⟨by simp, ?_⟩
      intro m hm hm0
      simp only [Option.some.injEq] at hm
      rw [hm0] at hm
      exact absurd hm.symm (by decide)

theorem C9_error_message_iff_down_witness :
    NetEnv.result { result := NetResult.raise (Thrown.errorWithMessage ""), elapsed := 7 } =
      NetResult.raise (Thrown.errorWithMessage "") ∧
    ((performCheck "http://a" "http"
        { result := NetResult.raise (Thrown.errorWithMessage ""), elapsed := 7 }).error_message.isSome ↔
      (performCheck "http://a" "http"
        { result := NetResult.raise (Thrown.errorWithMessage ""), elapsed := 7 }).status = Status.down) :=
  ⟨(C9_error_message_iff_down "http://a" "http"
      { result := NetResult.raise (Thrown.errorWithMessage ""), elapsed := 7 }).2
      "" (by decide) rfl,
   (C9_error_message_iff_down "http://a" "http"
      { result := NetResult.raise (Thrown.errorWithMessage ""), elapsed := 7 }).1⟩

/-- C9 counterexample: a fetch failure raised as an `Error` whose `.message`
is the empty string produces a down result whose `error_message` is the
empty (hence not non-empty) string, refuting "every DOWN result carries a
non-empty error message". -/
theorem C9_counterexample_empty_message :
    performCheck "http://a" "http"
      { result := NetResult.raise (Thrown.errorWithMessage ""), elapsed := 7 } =
    { status := Status.down, response_time_ms := some 7,
      error_message := some "" } := by decide

/-! Lemmas about the listing loop of the getMonitors handler. -/

theorem monitorsWithStatusAndCalls_fst_length (rpc : String → RpcOutcome) :
    ∀ ms : List MonitorRow, (monitorsWithStatusAndCalls rpc ms).1.length = ms.length
  | [] => rfl
  | m :: rest => by
    simp only [monitorsWithStatusAndCalls, List.length_cons]
    rw [monitorsWithStatusAndCalls_fst_length rpc rest]

theorem monitorsWithStatusAndCalls_snd_eq (rpc : String → RpcOutcome) :
    ∀ ms : List MonitorRow,
      (monitorsWithStatusAndCalls rpc ms).2 = ms.map (fun m => m.id)
  | [] => rfl
  | m :: rest => by
    simp only [monitorsWithStatusAndCalls, List.map_cons]
    rw [monitorsWithStatusAndCalls_snd_eq rpc rest]

theorem monitorsWithStatusAndCalls_mem (rpc : String → RpcOutcome) :
    ∀ (ms : List MonitorRow) (m : MonitorRow), m ∈ ms →
      attachLatestStatus (rpc m.id) m ∈ (monitorsWithStatusAndCalls rpc ms).1
  | [], m, h => absurd h (List.not_mem_nil m)
  | x :: rest, m, h => by
    rcases List.mem_cons.mp h with h | h
    · subst h
      exact List.mem_cons_self _ _
    · exact List.mem_cons_of_mem _
        (monitorsWithStatusAndCalls_mem rpc rest m h)

/-- C10: in the getMonitors handler a failed per-monitor latest-status RPC
is silently swallowed — the listing still answers 200 with one entry per
monitor, a monitor whose lookup failed is included with `latest_status`
null, and that entry is identical to the entry of a monitor whose lookup
returned no rows (never checked). -/
theorem C10_rpc_failure_swallowed (ms : List MonitorRow)
    (rpc : String → RpcOutcome) :
    (getMonitors (Except.ok ms) rpc =
        ListMonitorsResponse.ok (monitorsWithStatusAndCalls rpc ms).1 ms.length) ∧
    (∀ m ∈ ms, rpc m.id = RpcOutcome.failure →
      ({ monitor := m, latest_status := none } : MonitorWithStatus) ∈
        (monitorsWithStatusAndCalls rpc ms).1) ∧
    (∀ m, attachLatestStatus RpcOutcome.failure m =
      attachLatestStatus (RpcOutcome.rows []) m) := by
  refine ⟨?_, ?_, ?_⟩
  · simp only [getMonitors]
    rw [monitorsWithStatusAndCalls_fst_length rpc ms]
  · intro m hm hfail
    have h := monitorsWithStatusAndCalls_mem rpc ms m hm
    rw [hfail] at h
    exact h
  · intro m
    rfl

theorem C10_rpc_failure_swallowed_witness :
    getMonitors (Except.ok [monA]) failingRpc =
      ListMonitorsResponse.ok (monitorsWithStatusAndCalls failingRpc [monA]).1 1 ∧
    ({ monitor := monA, latest_status := none } : MonitorWithStatus) ∈
      (monitorsWithStatusAndCalls failingRpc [monA]).1 :=
  ⟨(C10_rpc_failure_swallowed [monA] failingRpc).1,
   (C10_rpc_failure_swallowed [monA] failingRpc).2.1 monA (by decide) rfl⟩

/-- C7 amended: the listing path issues exactly one
`get_latest_monitor_status` RPC per monitor — n round-trips for n monitors,
passing each monitor's id — and each such call, when backed by the SQL
helper over the checks table, returns at most one row. It is not a single
batched query. -/
theorem C7_one_rpc_per_monitor (rpc : String → RpcOutcome)
    (ms : List MonitorRow) (table : List CheckRow) (uuid : String) :
    (monitorsWithStatusAndCalls rpc ms).2 = ms.map (fun m => m.id) ∧
    (monitorsWithStatusAndCalls rpc ms).2.length = ms.length ∧
    (∀ ds, dbRpc table uuid = RpcOutcome.rows ds → ds.length ≤ 1) := by
  refine ⟨monitorsWithStatusAndCalls_snd_eq rpc ms, ?_, ?_⟩
  · rw [monitorsWithStatusAndCalls_snd_eq rpc ms, List.length_map]
  · intro ds hds
    simp only [dbRpc, RpcOutcome.rows.injEq] at hds
    subst hds
    cases get_latest_monitor_status table uuid <;> simp [Option.toList]

theorem C7_one_rpc_per_monitor_witness :
    (monitorsWithStatusAndCalls (dbRpc []) [monA, monB]).2 = ["a", "b"] ∧
    ([] : List LatestRow).length ≤ 1 :=
  ⟨((C7_one_rpc_per_monitor (dbRpc []) [monA, monB] [] "a").1).trans (by decide),
   (C7_one_rpc_per_monitor (dbRpc []) [monA, monB] [] "a").2.2 [] (by decide)⟩

/-- C7 counterexample: with two monitors the listing performs two
latest-status queries, not a single batched one. -/
theorem C7_counterexample_two_rpc_calls :
    (monitorsWithStatusAndCalls (dbRpc []) [monA, monB]).2.length = 2 ∧
    (monitorsWithStatusAndCalls (dbRpc []) [monA, monB]).2.length ≠ 1 := by
  decide

/-- C6: the most recent check of monitor `"m1"` carries latency 123 ms, but
the SQL helper's returned row has no `response_time_ms` column, so the
handler's `status.response_time_ms` read is `undefined` and the
`latest_status` attached by ListMonitors carries no latency — the code
drops the latency the claim (and the handler's own TypeScript interface)
says is included. -/
theorem C6_latency_dropped_from_latest_status :
    c6check.response_time_ms = some 123 ∧
    get_latest_monitor_status [c6check] "m1" =
      some { monitor_id := "m1", status := Status.up, checked_at := 1000 } ∧
    getMonitors (Except.ok [c6monitor]) (dbRpc [c6check]) =
      ListMonitorsResponse.ok
        [{ monitor := c6monitor,
           latest_status := some
             { status := Status.up, checked_at := 1000,
               response_time_ms := none } }] 1 := by
  decide

/-- C1: an authenticated CreateMonitor request with `interval_seconds = 30`
passes every validation of the handler — there is no minimum-interval check
— and the monitor is created with `interval_seconds = 30` (no
ValidationError), while omitting the interval does default it to 300. -/
theorem C1_interval_not_validated :
    createMonitor (fun _ => true) "u1"
      { name := some "site", url := some "https://example.test",
        type := some "http", interval_seconds := some 30 } =
      CreateMonitorResult.created
        { user_id := "u1", name := "site", url := "https://example.test",
          type := "http", interval_seconds := 30 } ∧
    createMonitor (fun _ => true) "u1"
      { name := some "site", url := some "https://example.test",
        type := some "http", interval_seconds := none } =
      CreateMonitorResult.created
        { user_id := "u1", name := "site", url := "https://example.test",
          type := "http", interval_seconds := 300 } := by
  decide

/-- C8: a name consisting only of whitespace is truthy in JavaScript, so the
handler's `!body.name` check does not reject it and the monitor is created
with the untrimmed blank name; only the genuinely empty string is rejected
(by the shared missing-fields message, not a dedicated one). -/
theorem C8_whitespace_name_not_rejected :
    (" ").toList.all Char.isWhitespace = true ∧
    createMonitor (fun _ => true) "u1"
      { name := some " ", url := some "https://example.test",
        type := some "http", interval_seconds := none } =
      CreateMonitorResult.created
        { user_id := "u1", name := " ", url := "https://example.test",
          type := "http", interval_seconds := 300 } ∧
    createMonitor (fun _ => true) "u1"
      { name := some "", url := some "https://example.test",
        type := some "http", interval_seconds := none } =
      CreateMonitorResult.validationError
        "Missing required fields: name, url, type" := by
  decide
